import Mathlib

/-
Shallow embedding of the `catalog` application of lucasws1/django_local_library
(src/catalog/models.py and src/catalog/admin.py).

The repository is pure framework configuration: model classes declare fields
(with `unique`, `choices`, `blank`, `default`, `on_delete` options) and the
admin module declares presentation configuration.  The embedding translates

  * every model class to a Lean structure whose fields mirror the declared
    columns (nullable columns become `Option`, foreign keys store the id of
    the referenced row, the many-to-many `genre` stores the associated
    `Genre` rows in the collection's iteration order);
  * every method defined in models.py (`is_overdue`, `display_genre`,
    `__str__`, `get_absolute_url`) to a Lean function with the same
    computation;
  * the generic create/delete operations of the object-relational mapper,
    as configured by the field declarations: uniqueness checks for
    `unique=True` columns, `choices`/`blank` validation for `status`,
    `default` application for unsupplied values, and the RESTRICT /
    SET_NULL delete behaviours, acting on an explicit database state.

Python's `datetime.date` comparison is lexicographic on
(year, month, day); `uuid.uuid4()` produces a 128-bit value, modelled as
`Fin (2 ^ 128)` with the generated value passed in explicitly.
-/

namespace Catalog

/-- Calendar date as in Python's `datetime.date`; comparison between dates is
lexicographic on (year, month, day). -/
structure Date where
  year : Nat
  month : Nat
  day : Nat
deriving DecidableEq, Repr

/-- Strict date order: `Date.ltb a b` is Python's `a < b` on `datetime.date`,
the lexicographic comparison of (year, month, day). -/
def Date.ltb (a b : Date) : Bool :=
  if a.year ≠ b.year then decide (a.year < b.year)
  else if a.month ≠ b.month then decide (a.month < b.month)
  else decide (a.day < b.day)

/-- Value of a `UUIDField`: a 128-bit identifier as produced by
`uuid.uuid4()`. -/
abbrev UUID : Type := Fin (2 ^ 128)

/-- Model `Genre` (models.py lines 10-24): `name` is a `CharField` with
`unique=True`. -/
structure Genre where
  id : Nat
  name : String
deriving DecidableEq, Repr

/-- Model `Language` (models.py lines 27-36): `name` is a `CharField` with
`unique=True`. -/
structure Language where
  id : Nat
  name : String
deriving DecidableEq, Repr

/-- Model `Author` (models.py lines 116-131). -/
structure Author where
  id : Nat
  first_name : String
  last_name : String
  date_of_birth : Option Date
  date_of_death : Option Date
deriving DecidableEq, Repr

/-- Model `Book` (models.py lines 39-71): `author` is a nullable foreign key
with `on_delete=RESTRICT`, `language` a nullable foreign key with
`on_delete=SET_NULL`, `isbn` a `CharField` with `unique=True`, and `genre` a
many-to-many relation whose rows are kept in the collection's iteration
order. -/
structure Book where
  id : Nat
  title : String
  author : Option Nat
  summary : String
  isbn : String
  genre : List Genre
  language : Option Nat
deriving DecidableEq, Repr

/-- Model `BookInstance` (models.py lines 74-113): `id` is a `UUIDField`
primary key with `default=uuid.uuid4`, `book` a nullable foreign key with
`on_delete=RESTRICT`, `borrower` a nullable foreign key to the external user
model with `on_delete=SET_NULL`, `due_back` a nullable date, and `status` a
one-character field with choices `LOAN_STATUS`, `blank=True` and
`default="m"`. -/
structure BookInstance where
  id : UUID
  book : Option Nat
  borrower : Option Nat
  imprint : String
  due_back : Option Date
  status : String
deriving DecidableEq

/-- The `LOAN_STATUS` choices tuple of `BookInstance`
(models.py lines 93-98). -/
def LOAN_STATUS : List (String × String) :=
  [("m", "Maintenance"), ("o", "On loan"), ("a", "Available"), ("r", "Reserved")]

/-- Property `BookInstance.is_overdue` (models.py lines 88-91):
`bool(self.due_back and date.today() > self.due_back)`.  `self.due_back` is
falsy exactly when it is `None`; otherwise the result is the strict date
comparison `date.today() > self.due_back`.  The current date is passed in as
`today`. -/
def is_overdue (today : Date) (due_back : Option Date) : Bool :=
  match due_back with
  | none => false
  | some d => Date.ltb d today

/-- Method `Book.display_genre` (models.py lines 59-61):
`", ".join([genre.name for genre in self.genre.all()[:3]])` — the names of
the first at most three genres in the collection's iteration order, joined
with `", "`. -/
def display_genre (b : Book) : String :=
  String.intercalate ", " ((b.genre.take 3).map Genre.name)

/-- Error classes of the persistence layer as the admin facade surfaces them:
`validationError` for a unique-constraint or field-constraint violation and
`restrictedError` for a delete blocked by a RESTRICT reference.  The string
names the offending field or model. -/
inductive DbError where
  | validationError : String → DbError
  | restrictedError : String → DbError
deriving DecidableEq, Repr

/-- Database state: one table per model class of models.py plus the external
user table referenced by `BookInstance.borrower`. -/
structure Db where
  genres : List Genre
  languages : List Language
  authors : List Author
  books : List Book
  instances : List BookInstance
  users : List Nat
deriving DecidableEq

/-- Creation of a `Genre` row.  `name` is declared `unique=True`
(models.py lines 12-16), so the store rejects a second row whose name is
string-equal (case-sensitively) to an existing one with a
`ValidationError`; otherwise the row is appended. -/
def createGenre (db : Db) (g : Genre) : Except DbError Db :=
  if db.genres.any (fun g0 => g0.name == g.name) then
    Except.error (DbError.validationError "name")
  else Except.ok { db with genres := db.genres ++ [g] }

/-- Creation of a `Language` row.  `name` is declared `unique=True`
(models.py lines 28-30), enforced as for `Genre`. -/
def createLanguage (db : Db) (l : Language) : Except DbError Db :=
  if db.languages.any (fun l0 => l0.name == l.name) then
    Except.error (DbError.validationError "name")
  else Except.ok { db with languages := db.languages ++ [l] }

/-- Creation of a `Book` row.  `isbn` is declared `unique=True`
(models.py lines 48-50), so a second row with a string-equal ISBN is
rejected with a `ValidationError`; otherwise the row is appended. -/
def createBook (db : Db) (b : Book) : Except DbError Db :=
  if db.books.any (fun b0 => b0.isbn == b.isbn) then
    Except.error (DbError.validationError "isbn")
  else Except.ok { db with books := db.books ++ [b] }

/-- Creation of a `BookInstance` row.  The framework applies a declared
`default` exactly when the field is not supplied at instantiation: `id`
defaults to a freshly generated `uuid.uuid4()` value (passed in as
`generated`), and `status` defaults to `"m"` (models.py lines 76-80 and
100-106). -/
def createBookInstance (generated : UUID) (suppliedId : Option UUID)
    (book : Option Nat) (borrower : Option Nat) (imprint : String)
    (due_back : Option Date) (suppliedStatus : Option String) : BookInstance :=
  { id := suppliedId.getD generated
    book := book
    borrower := borrower
    imprint := imprint
    due_back := due_back
    status := suppliedStatus.getD "m" }

/-- Validation of the `status` field as the framework's full-clean step
performs it for a `CharField` with `choices=LOAN_STATUS` and `blank=True`
(models.py lines 100-106): a value that is one of the framework's empty
values (for a string, the empty string) is exempt from the choice check, and
`blank=True` also exempts it from the blank check; any other value must be
one of the declared choice codes. -/
def validStatus (s : String) : Bool :=
  if s == "" then true
  else LOAN_STATUS.any (fun c => c.1 == s)

/-- Storing a `status` value through the admin facade, which runs the
full-clean validation: the value is either accepted or the operation aborts
with a `ValidationError` on the field. -/
def clean_status (s : String) : Except DbError String :=
  if validStatus s then Except.ok s
  else Except.error (DbError.validationError "status")

/-- Deletion of an `Author` row.  `Book.author` is declared
`on_delete=RESTRICT` (models.py line 44), so the delete is rejected with a
restricted-reference error while a referencing `Book` exists, leaving the
database unchanged; otherwise the row is removed. -/
def deleteAuthor (db : Db) (aid : Nat) : Except DbError Db :=
  if db.books.any (fun b => b.author == some aid) then
    Except.error (DbError.restrictedError "Author")
  else Except.ok { db with authors := db.authors.filter (fun a => a.id ≠ aid) }

/-- Deletion of a `Book` row.  `BookInstance.book` is declared
`on_delete=RESTRICT` (models.py line 81), so the delete is rejected with a
restricted-reference error while a referencing `BookInstance` exists,
leaving the database unchanged; otherwise the row is removed. -/
def deleteBook (db : Db) (bid : Nat) : Except DbError Db :=
  if db.instances.any (fun i => i.book == some bid) then
    Except.error (DbError.restrictedError "Book")
  else Except.ok { db with books := db.books.filter (fun b => b.id ≠ bid) }

/-- Deletion of a `Language` row.  `Book.language` is declared
`on_delete=SET_NULL` (models.py line 54): the delete always succeeds, the
row is removed and every referencing `Book` has its `language` reference
cleared. -/
def deleteLanguage (db : Db) (lid : Nat) : Db :=
  { db with
    languages := db.languages.filter (fun l => l.id ≠ lid)
    books := db.books.map (fun b =>
      if b.language == some lid then { b with language := none } else b) }

/-- Deletion of a borrowing user.  `BookInstance.borrower` is declared
`on_delete=SET_NULL` (models.py lines 82-84): the delete always succeeds,
the user is removed and every referencing `BookInstance` has its `borrower`
reference cleared. -/
def deleteUser (db : Db) (uid : Nat) : Db :=
  { db with
    users := db.users.filter (fun u => u ≠ uid)
    instances := db.instances.map (fun i =>
      if i.borrower == some uid then { i with borrower := none } else i) }

/-- The `fieldsets` declaration of `BookInstanceAdmin`
(admin.py lines 40-43): the sections of the admin add/change form and the
editable fields each section shows. -/
def bookInstanceAdminFieldsets : List (Option String × List String) :=
  [(none, ["book", "imprint", "id"]),
   (some "Availability", ["status", "due_back", "borrower"])]

/-- The editable form fields the admin facade exposes for a `BookInstance`:
the concatenation of the fieldsets' field lists. -/
def bookInstanceAdminFormFields : List String :=
  (bookInstanceAdminFieldsets.map Prod.snd).flatten

/-- Result of `django.urls.reverse(viewname, args)`: a locator naming a
route and carrying its path arguments. -/
structure Locator where
  route : String
  args : List String
deriving DecidableEq, Repr

/-- Method `Genre.get_absolute_url` (models.py lines 22-24):
`reverse("genre-detail", args=[str(self.id)])`. -/
def Genre.get_absolute_url (g : Genre) : Locator :=
  { route := "genre-detail", args := [toString g.id] }

/-- Method `Language.get_absolute_url` (models.py lines 32-33):
`reverse("language-detail", args=[str(self.id)])`. -/
def Language.get_absolute_url (l : Language) : Locator :=
  { route := "language-detail", args := [toString l.id] }

/-- Method `Book.get_absolute_url` (models.py lines 69-71):
`reverse("book-detail", args=[str(self.id)])`. -/
def Book.get_absolute_url (b : Book) : Locator :=
  { route := "book-detail", args := [toString b.id] }

/-- Method `Author.get_absolute_url` (models.py lines 127-128):
`reverse("author-detail", args=[str(self.id)])`. -/
def Author.get_absolute_url (a : Author) : Locator :=
  { route := "author-detail", args := [toString a.id] }

/-- Lookup of a `Book` row by primary key. -/
def lookupBook (db : Db) (bid : Nat) : Option Book :=
  db.books.find? (fun b => b.id == bid)

/-- Method `BookInstance.__str__` (models.py lines 112-113):
`f"{self.id} ({self.book.title})"`.  `self.book` dereferences the nullable
foreign key; when the reference is empty the attribute access `.title`
fails (an AttributeError on `None`), modelled as `none`; otherwise the
formatted string is returned. -/
def bookInstanceStr (db : Db) (inst : BookInstance) : Option String :=
  match inst.book.bind (lookupBook db) with
  | none => none
  | some b => some (toString inst.id.val ++ " (" ++ b.title ++ ")")

/-- Running a delete of an `Author` as a transaction: on rejection the
database is returned unchanged together with the error. -/
def attemptDeleteAuthor (db : Db) (aid : Nat) : Db × Option DbError :=
  match deleteAuthor db aid with
  | Except.ok db2 => (db2, none)
  | Except.error e => (db, some e)

/-- Running a delete of a `Book` as a transaction: on rejection the database
is returned unchanged together with the error. -/
def attemptDeleteBook (db : Db) (bid : Nat) : Db × Option DbError :=
  match deleteBook db bid with
  | Except.ok db2 => (db2, none)
  | Except.error e => (db, some e)

/-- Concrete 128-bit identifiers used as fixtures. -/
def uuidA : UUID := ⟨0, by norm_num⟩

/-- Second concrete 128-bit identifier fixture, distinct from `uuidA`. -/
def uuidB : UUID := ⟨1, by norm_num⟩

/-- Fixture `Author` row. -/
def authorA : Author := ⟨1, "John", "Doe", none, none⟩

/-- Fixture `Book` row referencing `authorA`. -/
def bookB : Book := ⟨1, "Title", some 1, "sum", "1234567890123", [], none⟩

/-- Fixture `BookInstance` row referencing `bookB`. -/
def instI : BookInstance := ⟨uuidA, some 1, none, "imp", none, "m"⟩

/-- Fixture `BookInstance` row whose `book` reference is empty. -/
def instNoBook : BookInstance := ⟨uuidA, none, none, "imp", none, "m"⟩

/-- Fixture database holding `authorA`, `bookB` and `instI`. -/
def dbFull : Db := ⟨[], [], [authorA], [bookB], [instI], []⟩

/-- Fixture database holding one `Genre`, one `Language` and `bookB`. -/
def dbGL : Db := ⟨[⟨1, "Fantasy"⟩], [⟨1, "English"⟩], [], [bookB], [], []⟩

/-- Fixture `Book` whose genre collection yields Fantasy, Drama, War,
Satire in that order. -/
def fantasyBook : Book :=
  ⟨2, "T", none, "s", "isbn2",
    [⟨1, "Fantasy"⟩, ⟨2, "Drama"⟩, ⟨3, "War"⟩, ⟨4, "Satire"⟩], none⟩

/-- Characterisation of the strict date order `Date.ltb` as the
lexicographic order on (year, month, day). -/
theorem Date.ltb_iff (a b : Date) :
    Date.ltb a b = true ↔
      a.year < b.year ∨ (a.year = b.year ∧
        (a.month < b.month ∨ (a.month = b.month ∧ a.day < b.day))) := by
  unfold Date.ltb
  repeat' split
  all_goals simp_all

/-- Joining three strings with `String.intercalate ", "`. -/
theorem intercalate_three (a b c : String) :
    String.intercalate ", " [a, b, c] = a ++ ", " ++ b ++ ", " ++ c := by
  simp [String.intercalate, String.intercalate.go, String.append_assoc]

/-- C3: `is_overdue` is true iff `due_back` is set and strictly precedes the
current date (lexicographically on year, month, day); with a fixed today of
2024-01-15, a due date of 2024-01-14 yields true, 2024-01-16 yields false,
and an unset due date yields false. -/
theorem C3_is_overdue_iff_due_back_before_today :
    (∀ (today : Date) (due : Option Date),
      is_overdue today due = true ↔
        ∃ d, due = some d ∧
          (d.year < today.year ∨ (d.year = today.year ∧
            (d.month < today.month ∨ (d.month = today.month ∧ d.day < today.day)))))
    ∧ is_overdue ⟨2024, 1, 15⟩ (some ⟨2024, 1, 14⟩) = true
    ∧ is_overdue ⟨2024, 1, 15⟩ (some ⟨2024, 1, 16⟩) = false
    ∧ is_overdue ⟨2024, 1, 15⟩ none = false := by
  refine ⟨?_, by decide, by decide, rfl⟩
  intro today due
  cases due with
  | none => simp [is_overdue]
  | some d => simp [is_overdue, Date.ltb_iff]

/-- C4: `display_genre` joins with comma-and-space the names of at most the
first three genres in the collection's iteration order: with at least three
genres the result is the first three names joined, independent of the rest;
with genres Fantasy, Drama, War, Satire the result is
"Fantasy, Drama, War". -/
theorem C4_display_genre_first_three :
    (∀ (b : Book) (g1 g2 g3 : Genre) (rest : List Genre),
      b.genre = g1 :: g2 :: g3 :: rest →
      display_genre b = g1.name ++ ", " ++ g2.name ++ ", " ++ g3.name)
    ∧ (∀ (b : Book),
      b.genre = [⟨1, "Fantasy"⟩, ⟨2, "Drama"⟩, ⟨3, "War"⟩, ⟨4, "Satire"⟩] →
      display_genre b = "Fantasy, Drama, War") := by
  constructor
  · intro b g1 g2 g3 rest hb
    simp [display_genre, hb, intercalate_three]
  · intro b hb
    simp [display_genre, hb]
    rfl

/-- Witness for C4 at the fixture book with genres Fantasy, Drama, War,
Satire. -/
theorem C4_display_genre_first_three_witness :
    display_genre fantasyBook = "Fantasy, Drama, War" ∧
    display_genre fantasyBook = "Fantasy" ++ ", " ++ "Drama" ++ ", " ++ "War" :=
  ⟨C4_display_genre_first_three.2 fantasyBook rfl,
   C4_display_genre_first_three.1 fantasyBook
     ⟨1, "Fantasy"⟩ ⟨2, "Drama"⟩ ⟨3, "War"⟩ [⟨4, "Satire"⟩] rfl⟩

/-- C8: a `BookInstance` created without an explicitly supplied status has
status `"m"` (Maintenance), the declared default. -/
theorem C8_status_defaults_to_maintenance :
    ∀ (generated : UUID) (suppliedId : Option UUID) (book borrower : Option Nat)
      (imprint : String) (due : Option Date),
      (createBookInstance generated suppliedId book borrower imprint due none).status
        = "m" := by
  intros
  rfl

/-- C9: each of `Genre`, `Language`, `Book`, `Author` builds its canonical
detail-view locator from a named route plus the entity's identifier,
converted to a string, as its single path argument. -/
theorem C9_detail_locators :
    ∀ (g : Genre) (l : Language) (b : Book) (a : Author),
      Genre.get_absolute_url g = ⟨"genre-detail", [toString g.id]⟩ ∧
      Language.get_absolute_url l = ⟨"language-detail", [toString l.id]⟩ ∧
      Book.get_absolute_url b = ⟨"book-detail", [toString b.id]⟩ ∧
      Author.get_absolute_url a = ⟨"author-detail", [toString a.id]⟩ ∧
      (Genre.get_absolute_url g).args.length = 1 ∧
      (Language.get_absolute_url l).args.length = 1 ∧
      (Book.get_absolute_url b).args.length = 1 ∧
      (Author.get_absolute_url a).args.length = 1 := by
  intro g l b a
  exact ⟨rfl, rfl, rfl, rfl, rfl, rfl, rfl, rfl⟩

/-- C10: the string representation of a `BookInstance` dereferences the
title of its referenced `Book`, so when the (nullable) book reference is
empty the computation fails rather than returning a value. -/
theorem C10_str_fails_on_empty_book :
    ∀ (db : Db) (inst : BookInstance),
      inst.book = none → bookInstanceStr db inst = none := by
  intro db inst h
  simp [bookInstanceStr, h]

/-- Witness for C10 at the fixture instance with an empty book reference. -/
theorem C10_str_fails_on_empty_book_witness :
    bookInstanceStr dbFull instNoBook = none :=
  C10_str_fails_on_empty_book dbFull instNoBook rfl

/-- C5: creating a `Genre` or `Language` whose name, or a `Book` whose ISBN,
is case-sensitively equal to an existing one fails with a
`ValidationError`; creating with a distinct name (respectively ISBN)
succeeds and appends the row. -/
theorem C5_unique_name_and_isbn :
    (∀ (db : Db) (g : Genre),
      ((∃ g0 ∈ db.genres, g0.name = g.name) →
        createGenre db g = Except.error (DbError.validationError "name")) ∧
      ((¬ ∃ g0 ∈ db.genres, g0.name = g.name) →
        createGenre db g = Except.ok { db with genres := db.genres ++ [g] })) ∧
    (∀ (db : Db) (l : Language),
      ((∃ l0 ∈ db.languages, l0.name = l.name) →
        createLanguage db l = Except.error (DbError.validationError "name")) ∧
      ((¬ ∃ l0 ∈ db.languages, l0.name = l.name) →
        createLanguage db l = Except.ok { db with languages := db.languages ++ [l] })) ∧
    (∀ (db : Db) (b : Book),
      ((∃ b0 ∈ db.books, b0.isbn = b.isbn) →
        createBook db b = Except.error (DbError.validationError "isbn")) ∧
      ((¬ ∃ b0 ∈ db.books, b0.isbn = b.isbn) →
        createBook db b = Except.ok { db with books := db.books ++ [b] })) := by
  refine ⟨fun db g => ⟨?_, ?_⟩, fun db l => ⟨?_, ?_⟩, fun db b => ⟨?_, ?_⟩⟩
  · intro h
    have hany : db.genres.any (fun g0 => g0.name == g.name) = true := by
      simpa [List.any_eq_true] using h
    simp [createGenre, hany]
  · intro h
    have hany : db.genres.any (fun g0 => g0.name == g.name) = false := by
      simpa [List.any_eq_false] using h
    simp [createGenre, hany]
  · intro h
    have hany : db.languages.any (fun l0 => l0.name == l.name) = true := by
      simpa [List.any_eq_true] using h
    simp [createLanguage, hany]
  · intro h
    have hany : db.languages.any (fun l0 => l0.name == l.name) = false := by
      simpa [List.any_eq_false] using h
    simp [createLanguage, hany]
  · intro h
    have hany : db.books.any (fun b0 => b0.isbn == b.isbn) = true := by
      simpa [List.any_eq_true] using h
    simp [createBook, hany]
  · intro h
    have hany : db.books.any (fun b0 => b0.isbn == b.isbn) = false := by
      simpa [List.any_eq_false] using h
    simp [createBook, hany]

/-- Witness for C5: on the fixture database, a duplicate genre name,
language name or book ISBN is rejected, and distinct ones are accepted. -/
theorem C5_unique_name_and_isbn_witness :
    createGenre dbGL ⟨2, "Fantasy"⟩ = Except.error (DbError.validationError "name") ∧
    createGenre dbGL ⟨2, "Drama"⟩
      = Except.ok { dbGL with genres := dbGL.genres ++ [⟨2, "Drama"⟩] } ∧
    createLanguage dbGL ⟨2, "English"⟩ = Except.error (DbError.validationError "name") ∧
    createLanguage dbGL ⟨2, "French"⟩
      = Except.ok { dbGL with languages := dbGL.languages ++ [⟨2, "French"⟩] } ∧
    createBook dbGL ⟨2, "U", none, "s2", "1234567890123", [], none⟩
      = Except.error (DbError.validationError "isbn") ∧
    createBook dbGL ⟨2, "U", none, "s2", "9999999999999", [], none⟩
      = Except.ok { dbGL with
          books := dbGL.books ++ [⟨2, "U", none, "s2", "9999999999999", [], none⟩] } :=
  ⟨(C5_unique_name_and_isbn.1 dbGL ⟨2, "Fantasy"⟩).1 (by decide),
   (C5_unique_name_and_isbn.1 dbGL ⟨2, "Drama"⟩).2 (by decide),
   (C5_unique_name_and_isbn.2.1 dbGL ⟨2, "English"⟩).1 (by decide),
   (C5_unique_name_and_isbn.2.1 dbGL ⟨2, "French"⟩).2 (by decide),
   (C5_unique_name_and_isbn.2.2 dbGL ⟨2, "U", none, "s2", "1234567890123", [], none⟩).1
     (by decide),
   (C5_unique_name_and_isbn.2.2 dbGL ⟨2, "U", none, "s2", "9999999999999", [], none⟩).2
     (by decide)⟩

/-- C6: deleting an `Author` referenced by a `Book`, or a `Book` referenced
by a `BookInstance`, fails with the restricted-reference error and leaves
the database unchanged. -/
theorem C6_restrict_on_delete :
    (∀ (db : Db) (aid : Nat),
      (∃ b ∈ db.books, b.author = some aid) →
        attemptDeleteAuthor db aid = (db, some (DbError.restrictedError "Author"))) ∧
    (∀ (db : Db) (bid : Nat),
      (∃ i ∈ db.instances, i.book = some bid) →
        attemptDeleteBook db bid = (db, some (DbError.restrictedError "Book"))) := by
  constructor
  · intro db aid h
    have hany : db.books.any (fun b => b.author == some aid) = true := by
      simpa [List.any_eq_true] using h
    simp [attemptDeleteAuthor, deleteAuthor, hany]
  · intro db bid h
    have hany : db.instances.any (fun i => i.book == some bid) = true := by
      simpa [List.any_eq_true] using h
    simp [attemptDeleteBook, deleteBook, hany]

/-- Witness for C6: on the fixture database, deleting the referenced author
or the referenced book is rejected with the database unchanged. -/
theorem C6_restrict_on_delete_witness :
    attemptDeleteAuthor dbFull 1 = (dbFull, some (DbError.restrictedError "Author")) ∧
    attemptDeleteBook dbFull 1 = (dbFull, some (DbError.restrictedError "Book")) :=
  ⟨C6_restrict_on_delete.1 dbFull 1 ⟨bookB, by simp [dbFull], rfl⟩,
   C6_restrict_on_delete.2 dbFull 1 ⟨instI, by simp [dbFull], rfl⟩⟩

/-- C7: deleting a `Language` always succeeds, removes the row and clears
the `language` reference of every referencing `Book` without deleting any
book; deleting a borrowing user always succeeds, removes the user and
clears the `borrower` reference of every referencing `BookInstance` without
deleting any instance. -/
theorem C7_nullify_on_delete :
    (∀ (db : Db) (lid : Nat),
      (deleteLanguage db lid).languages.all (fun l => l.id != lid) = true ∧
      (deleteLanguage db lid).books.all (fun b => b.language != some lid) = true ∧
      (deleteLanguage db lid).books.length = db.books.length) ∧
    (∀ (db : Db) (uid : Nat),
      (deleteUser db uid).users.all (fun u => u != uid) = true ∧
      (deleteUser db uid).instances.all (fun i => i.borrower != some uid) = true ∧
      (deleteUser db uid).instances.length = db.instances.length) := by
  constructor
  · intro db lid
    refine ⟨?_, ?_, by simp [deleteLanguage]⟩
    · simp only [deleteLanguage, List.all_eq_true, List.mem_filter]
      intro l hl
      simpa using hl.2
    · simp only [deleteLanguage, List.all_eq_true, List.mem_map]
      rintro b' ⟨b, hb, rfl⟩
      split
      · simp
      · next h => simpa using fun hc => h (by simp [hc])
  · intro db uid
    refine ⟨?_, ?_, by simp [deleteUser]⟩
    · simp only [deleteUser, List.all_eq_true, List.mem_filter]
      intro u hu
      simpa using hu.2
    · simp only [deleteUser, List.all_eq_true, List.mem_map]
      rintro i' ⟨i, hi, rfl⟩
      split
      · simp
      · next h => simpa using fun hc => h (by simp [hc])

/-- C2 counterexample: the empty string lies outside the four enumerated
status codes, yet the full-clean validation of the `status` field accepts
it (the field declares `blank=True`), so storing it does not fail. -/
theorem C2_counterexample_empty_status_accepted :
    clean_status "" = Except.ok "" ∧ "" ∉ LOAN_STATUS.map Prod.fst := by
  exact ⟨rfl, by decide⟩

/-- C2 amended: a non-empty `status` value outside the four enumerated codes
is rejected with a `ValidationError`; the accepted values are exactly the
four codes and, because the field declares `blank=True`, the empty
string. -/
theorem C2_status_enumeration_or_blank :
    ∀ (s : String),
      (clean_status s = Except.ok s ↔ (s = "" ∨ s ∈ LOAN_STATUS.map Prod.fst)) ∧
      (¬ (s = "" ∨ s ∈ LOAN_STATUS.map Prod.fst) →
        clean_status s = Except.error (DbError.validationError "status")) := by
  have hvalid : ∀ (s : String),
      validStatus s = true ↔ (s = "" ∨ s ∈ LOAN_STATUS.map Prod.fst) := by
    intro s
    unfold validStatus
    split <;> first
      | (simp_all [LOAN_STATUS]; tauto)
      | simp_all [LOAN_STATUS]
  intro s
  constructor
  · constructor
    · intro h
      by_contra hc
      have : validStatus s = false := by
        cases hv : validStatus s with
        | false => rfl
        | true => exact absurd ((hvalid s).mp hv) hc
      simp [clean_status, this] at h
    · intro h
      have : validStatus s = true := (hvalid s).mpr h
      simp [clean_status, this]
  · intro h
    have : validStatus s = false := by
      cases hv : validStatus s with
      | false => rfl
      | true => exact absurd ((hvalid s).mp hv) h
    simp [clean_status, this]

/-- Witness for C2 amended: the out-of-enumeration value "x" is rejected and
the in-enumeration value "o" is accepted. -/
theorem C2_status_enumeration_or_blank_witness :
    clean_status "x" = Except.error (DbError.validationError "status") ∧
    clean_status "o" = Except.ok "o" :=
  ⟨(C2_status_enumeration_or_blank "x").2 (by decide),
   (C2_status_enumeration_or_blank "o").1.mpr (by decide)⟩

/-- C1 counterexample: the admin facade's `BookInstance` form exposes `id`
among its editable fields (admin.py lines 40-43), and a creation that
supplies an id stores the supplied value rather than the generated one, so
the id is not exclusively system-assigned. -/
theorem C1_counterexample_id_user_editable :
    "id" ∈ bookInstanceAdminFormFields ∧
    (createBookInstance uuidA (some uuidB) none none "" none none).id = uuidB ∧
    uuidB ≠ uuidA := by
  exact ⟨by decide, rfl, by decide⟩

/-- C1 amended: the `BookInstance` id is a 128-bit value whose default is a
freshly generated `uuid.uuid4()` value, assigned whenever no id is supplied
at creation; however the admin facade lists `id` among the editable form
fields, so it can be user-supplied. -/
theorem C1_id_generated_unless_supplied :
    (∀ (generated : UUID) (book borrower : Option Nat) (imprint : String)
        (due : Option Date) (st : Option String),
      (createBookInstance generated none book borrower imprint due st).id = generated ∧
      (createBookInstance generated none book borrower imprint due st).id.val < 2 ^ 128) ∧
    "id" ∈ bookInstanceAdminFormFields := by
  refine ⟨fun generated book borrower imprint due st => ⟨rfl, ?_⟩, by decide⟩
  exact (createBookInstance generated none book borrower imprint due st).id.isLt

end Catalog
